import Mathlib

/-!
Shallow embedding of the cross-account polling/resume core of the
x-post-to-discord-with-google-sheet-integration repository.

Embedded components:
* `StateManager` (src/core/state_manager.py): the SQLite-backed store is
  modelled as an explicit `StoreState` record; each Python method becomes a
  pure state-passing function.  SQLite's `CURRENT_TIMESTAMP` is modelled by a
  monotone `clock` field consumed by `save_pending_post` (the only write whose
  timestamp is read back by control logic, via `get_latest_pending_post`).
* `Pipeline` (src/core/pipeline.py): `_fetch_new_tweets`, `_process_tweets`,
  `_save_processed_content`, `_update_state` and `run`.  The network
  collaborators are oracles: `fetch` (TweetFetcher.fetch_new_tweets — returns
  `rateLimited` for Python `None`, `items` for a list, `fetchError` for a
  raised exception) and `classify` (PromptProcessor.analyze_tweet — `none`
  models a failed/dropped analysis).  `parse_username` (utils/helpers.py) is
  regex-heavy glue no claim depends on; it is passed as an opaque function
  parameter `parse` and instantiated with `id` on already-clean usernames.
  Sleeps (`asyncio.sleep`) have no state effect and are not modelled.
* `post_latest_tweet_to_discord.py`: the delivery sweep, with the Discord
  webhook as a boolean oracle `notify`.
* The `max_results` clamp of `TweetFetcher.get_user_tweets`
  (src/core/tweet_fetcher.py lines 186-189).

Tweet identifiers are decimal digit strings in the source; they are modelled
as naturals (the source compares them via `int(t['id'])`).
-/

namespace XBot

/-- Row of the `pending_posts` table (state_manager.py `_init_database`).
Note the schema has no UNIQUE constraint on `tweet_id`; deduplication is done
by `save_pending_post` via `is_tweet_already_saved`. -/
structure PendingPost where
  tweet_id : Nat
  tweet_text : String
  username : String
  created_at : String
  ai_summary : String
  ai_decision : String
  created_timestamp : Nat
deriving DecidableEq, Repr

/-- Row of the `errors` table. -/
structure ErrorRecord where
  error_type : String
  error_message : String
  username : Option String
deriving DecidableEq, Repr

/-- The persistent store owned by `StateManager`, plus the clock supplying
`CURRENT_TIMESTAMP` values for pending-post insertions.  `cursors` is the
`accounts` table (username → last_tweet_id), `pendingPosts` the
`pending_posts` table in rowid order, `resumeIndex` the
`pipeline_state['last_processed_account_index']` row (`none` = row absent). -/
structure StoreState where
  cursors : List (String × Nat)
  pendingPosts : List PendingPost
  resumeIndex : Option Int
  errors : List ErrorRecord
  clock : Nat
deriving DecidableEq, Repr

namespace StateManager

/-- `StateManager.get_last_tweet_id`: SELECT last_tweet_id FROM accounts. -/
def get_last_tweet_id (s : StoreState) (username : String) : Option Nat :=
  (s.cursors.find? (fun c => c.1 == username)).map (fun c => c.2)

/-- `StateManager.update_last_tweet_id`: INSERT OR REPLACE keyed on the
`username` primary key. -/
def update_last_tweet_id (s : StoreState) (username : String) (tweetId : Nat) :
    StoreState :=
  { s with cursors :=
      if s.cursors.any (fun c => c.1 == username) then
        s.cursors.map (fun c => if c.1 == username then (username, tweetId) else c)
      else
        s.cursors ++ [(username, tweetId)] }

/-- `StateManager.log_error`: INSERT INTO errors. -/
def log_error (s : StoreState) (errorType errorMessage : String)
    (username : Option String) : StoreState :=
  { s with errors := s.errors ++ [⟨errorType, errorMessage, username⟩] }

/-- `StateManager.is_tweet_already_saved`: SELECT COUNT(*) FROM pending_posts
WHERE tweet_id = ?, compared against 0. -/
def is_tweet_already_saved (s : StoreState) (tweetId : Nat) : Bool :=
  decide (0 < (s.pendingPosts.filter (fun p => p.tweet_id == tweetId)).length)

/-- Dictionary shape handed to `save_pending_post` as `tweet_data`. -/
structure TweetData where
  id : Nat
  text : String
  username : String
  created_at : String
deriving DecidableEq, Repr

/-- Dictionary shape handed to `save_pending_post` as `analysis_result`
(only the `summary` and `decision` keys are read). -/
structure AnalysisData where
  summary : String
  decision : String
deriving DecidableEq, Repr

/-- `StateManager.save_pending_post`: check-then-insert.  Returns `false` and
leaves the store untouched when the tweet id is already present, otherwise
appends a row stamped with the current clock and returns `true`. -/
def save_pending_post (s : StoreState) (td : TweetData) (ar : AnalysisData) :
    Bool × StoreState :=
  if is_tweet_already_saved s td.id then
    (false, s)
  else
    (true,
      { s with
        pendingPosts := s.pendingPosts ++
          [⟨td.id, td.text, td.username, td.created_at, ar.summary, ar.decision, s.clock⟩]
        clock := s.clock + 1 })

/-- Concretisation of `ORDER BY created_timestamp DESC LIMIT 1` over the rows
in rowid order: the first row among those with maximal `created_timestamp`. -/
def pickLatest : List PendingPost → Option PendingPost
  | [] => none
  | p :: rest =>
    match pickLatest rest with
    | none => some p
    | some q => if q.created_timestamp > p.created_timestamp then some q else some p

/-- `StateManager.get_latest_pending_post`: SELECT ... FROM pending_posts
ORDER BY created_timestamp DESC LIMIT 1. -/
def get_latest_pending_post (s : StoreState) : Option PendingPost :=
  pickLatest s.pendingPosts

/-- `StateManager.delete_pending_post`: DELETE FROM pending_posts WHERE
tweet_id = ?. -/
def delete_pending_post (s : StoreState) (tweetId : Nat) : StoreState :=
  { s with pendingPosts := s.pendingPosts.filter (fun p => !(p.tweet_id == tweetId)) }

/-- `StateManager.get_last_processed_account_index`: returns the stored value,
or 0 when the `pipeline_state` row does not exist. -/
def get_last_processed_account_index (s : StoreState) : Int :=
  match s.resumeIndex with
  | some v => v
  | none => 0

/-- `StateManager.set_last_processed_account_index`: INSERT OR REPLACE. -/
def set_last_processed_account_index (s : StoreState) (index : Int) : StoreState :=
  { s with resumeIndex := some index }

/-- Number of pending rows carrying a given tweet id. -/
def pendingCount (s : StoreState) (tweetId : Nat) : Nat :=
  (s.pendingPosts.filter (fun p => p.tweet_id == tweetId)).length

end StateManager

/-- In-memory tweet dictionary as produced by
`TweetFetcher.fetch_new_tweets` and consumed by the pipeline. -/
structure Tweet where
  id : Nat
  text : String
  username : String
  created_at : String
deriving DecidableEq, Repr

/-- Parsed JSON body returned by the classifier for one tweet
(`PromptProcessor.analyze_tweet`): the prompt requests exactly the keys
`decision` and `reasoning`. -/
structure ClassifierOutput where
  decision : String
  reasoning : String
deriving DecidableEq, Repr

/-- Classification collaborator: `none` models a failed call or malformed
response (`analyze_tweet` returning `None`). -/
def ClassifyOracle : Type := Tweet → Option ClassifierOutput

/-- Result dictionary built by `analyze_tweet`: the parsed JSON plus the
tweet metadata keys it adds (`tweet_id`, `username`, `tweet_text`). -/
structure AnalysisResult where
  decision : String
  reasoning : String
  tweet_id : Nat
  username : String
  tweet_text : String
deriving DecidableEq, Repr

/-- Python `str.upper()` applied to a decision string: uppercase every
character.  Defined by structural recursion over the character list (instead
of `String.toUpper`, whose well-founded recursion does not reduce in the
kernel); the two agree on the ASCII decision values involved. -/
def pyUpper (s : String) : String := ⟨s.data.map Char.toUpper⟩

/-- `PromptProcessor.analyze_tweets_batch`: sequential analysis keeping the
non-failed results. -/
def analyze_tweets_batch (classify : ClassifyOracle) (tweets : List Tweet) :
    List AnalysisResult :=
  tweets.filterMap (fun t =>
    (classify t).map (fun o =>
      { decision := o.decision
        reasoning := o.reasoning
        tweet_id := t.id
        username := t.username
        tweet_text := t.text }))

/-- `Pipeline._process_tweets`: analyze the batch, keep the positive
decisions (`result.get('decision','').upper() == 'TRUE'`). -/
def process_tweets (classify : ClassifyOracle) (tweets : List Tweet) :
    List AnalysisResult :=
  (analyze_tweets_batch classify tweets).filter
    (fun r => pyUpper r.decision == "TRUE")

/-- `Pipeline._save_processed_content`: re-analyze the tweets, then save each
positive result via `save_pending_post`.  `result.get('summary','')` yields
`""` (the classifier emits `reasoning`, never `summary`) and
`result.get('created_at','Unknown')` yields `"Unknown"` (the analysis result
carries no `created_at` key). -/
def save_processed_content (classify : ClassifyOracle) (tweets : List Tweet)
    (s : StoreState) : StoreState :=
  (process_tweets classify tweets).foldl
    (fun acc r =>
      if pyUpper r.decision == "TRUE" then
        (StateManager.save_pending_post acc
          { id := r.tweet_id
            text := r.tweet_text
            username := r.username
            created_at := "Unknown" }
          { summary := "", decision := r.decision }).2
      else acc)
    s

/-- Raw item returned by the content source for one account; the pipeline
tags each with the queried username (tweet_fetcher.py lines 239-244 set the
`username` field to the `username` argument). -/
structure RawTweet where
  id : Nat
  text : String
  created_at : String
deriving DecidableEq, Repr

/-- Outcome of one `TweetFetcher.fetch_new_tweets` call as seen by the
pipeline: Python `None` (rate limit), a list (possibly empty), or a raised
exception caught by the pipeline's `except` clause. -/
inductive FetchResult where
  | rateLimited : FetchResult
  | items : List RawTweet → FetchResult
  | fetchError : String → FetchResult
deriving DecidableEq, Repr

/-- `true` exactly on the `items` outcome (no rate limit, no error). -/
def FetchResult.isItems : FetchResult → Bool
  | .items _ => true
  | _ => false

/-- Content-source collaborator: username, stored cursor, requested limit. -/
def FetchOracle : Type := String → Option Nat → Nat → FetchResult

/-- Mutable state threaded through the `for` loop of
`Pipeline._fetch_new_tweets`: the `all_tweets` accumulator, the
`any_processed` flag, the store, and the trace of fetch attempts
(current_index, parsed username) in call order. -/
structure PassState where
  allTweets : List Tweet
  anyProcessed : Bool
  store : StoreState
  fetchCalls : List (Nat × String)
deriving DecidableEq, Repr

/-- `Pipeline.ENABLE_INTERNAL_CYCLING` (pipeline.py line 22). -/
def ENABLE_INTERNAL_CYCLING : Bool := false

/-- One iteration of the account loop in `Pipeline._fetch_new_tweets`
(pipeline.py lines 143-215).  On `rateLimited` the code saves any accumulated
content, sleeps 20 minutes, and — despite its own comments — executes
`continue`, moving on to the NEXT loop index without updating the resume
index.  On `items` the accumulator is extended (empty list = no-op) and the
resume index and `any_processed` are updated.  On an exception the error is
logged and the resume index is still updated. -/
def passStep (accounts : List String) (parse : String → String)
    (fetch : FetchOracle) (classify : ClassifyOracle) (maxTweets : Nat)
    (startIndex : Nat) (st : PassState) (i : Nat) : PassState :=
  let currentIndex := (startIndex + i) % accounts.length
  let username := parse (accounts.getD currentIndex "")
  let calls := st.fetchCalls ++ [(currentIndex, username)]
  match fetch username (StateManager.get_last_tweet_id st.store username) maxTweets with
  | .rateLimited =>
    if st.allTweets.isEmpty then
      { st with fetchCalls := calls }
    else
      { st with
        fetchCalls := calls
        store := save_processed_content classify st.allTweets st.store }
  | .items newTweets =>
    { st with
      fetchCalls := calls
      allTweets := st.allTweets ++ newTweets.map (fun t =>
        ({ id := t.id
           text := t.text
           username := username
           created_at := t.created_at } : Tweet))
      store := StateManager.set_last_processed_account_index st.store
        (currentIndex : Int)
      anyProcessed := true }
  | .fetchError msg =>
    { st with
      fetchCalls := calls
      store := StateManager.set_last_processed_account_index
        (StateManager.log_error st.store "tweet_fetch_error" msg (some username))
        ((currentIndex : Int)) }

/-- `start_index = (last_processed_index + 1) % len(accounts)`
(pipeline.py line 137); Python's `%` on ints is `Int.emod`. -/
def startIndexOf (s : StoreState) (n : Nat) : Nat :=
  ((StateManager.get_last_processed_account_index s + 1) % (n : Int)).toNat

/-- End-of-pass reset (pipeline.py lines 222-228): only when internal cycling
is enabled and something was processed, re-read the resume index and reset it
to -1 once it reached the last account. -/
def endOfPass (cycling : Bool) (accounts : List String) (st : PassState) :
    PassState :=
  if cycling && (decide (0 < st.allTweets.length) || st.anyProcessed) then
    if StateManager.get_last_processed_account_index st.store ≥
        (accounts.length : Int) - 1 then
      { st with store := StateManager.set_last_processed_account_index st.store (-1) }
    else st
  else st

/-- Initial loop state of a pass. -/
def initPass (s : StoreState) : PassState :=
  { allTweets := [], anyProcessed := false, store := s, fetchCalls := [] }

/-- `Pipeline._fetch_new_tweets`: one full pass over the account list.
`run` guarantees a non-empty account list before calling it. -/
def fetch_new_tweets (cycling : Bool) (accounts : List String)
    (parse : String → String) (fetch : FetchOracle) (classify : ClassifyOracle)
    (maxTweets : Nat) (s : StoreState) : PassState :=
  endOfPass cycling accounts
    ((List.range accounts.length).foldl
      (passStep accounts parse fetch classify maxTweets
        (startIndexOf s accounts.length))
      (initPass s))

/-- First maximal element under `int(t['id'])`, as computed by Python's
`max(user_tweets, key=lambda t: int(t['id']))`. -/
def maxByTweetId (l : List Tweet) : Option Tweet :=
  l.foldl
    (fun acc t =>
      match acc with
      | none => some t
      | some m => if t.id > m.id then some t else some m)
    none

/-- `Pipeline._update_state`: group tweets by username (dict insertion
order), store the maximal tweet id per username as the new cursor. -/
def update_state (tweets : List Tweet) (s : StoreState) : StoreState :=
  let usernames := tweets.foldl
    (fun acc t => if acc.contains t.username then acc else acc ++ [t.username]) []
  usernames.foldl
    (fun acc u =>
      match maxByTweetId (tweets.filter (fun t => t.username == u)) with
      | some t => StateManager.update_last_tweet_id acc u t.id
      | none => acc)
    s

/-- `Pipeline.run` steps 1-5: abort on an empty account list, fetch, abort
when nothing was fetched or nothing classified positive, then save positives
and update the per-account cursors. -/
def pipelineRun (cycling : Bool) (accounts : List String)
    (parse : String → String) (fetch : FetchOracle) (classify : ClassifyOracle)
    (maxTweets : Nat) (s : StoreState) : StoreState :=
  if accounts.isEmpty then s
  else
    let pr := fetch_new_tweets cycling accounts parse fetch classify maxTweets s
    if pr.allTweets.isEmpty then pr.store
    else if (process_tweets classify pr.allTweets).isEmpty then pr.store
    else update_state pr.allTweets (save_processed_content classify pr.allTweets pr.store)

/-- Control-flow outcome of one run of `post_latest_pending`
(post_latest_tweet_to_discord.py): the three distinguishable paths. -/
inductive DeliverOutcome where
  | delivered : DeliverOutcome
  | empty : DeliverOutcome
  | failed : DeliverOutcome
deriving DecidableEq, Repr

/-- Result of one delivery sweep: outcome, resulting store, and the trace of
tweet ids handed to the Discord notifier. -/
structure SweepResult where
  outcome : DeliverOutcome
  store : StoreState
  deliveryCalls : List Nat
deriving DecidableEq, Repr

/-- `post_latest_pending` (post_latest_tweet_to_discord.py lines 69-98):
dequeue via `get_latest_pending_post`; on a hit, send to Discord and delete
the row only on confirmed success. -/
def post_latest_pending (notify : PendingPost → Bool) (s : StoreState) :
    SweepResult :=
  match StateManager.get_latest_pending_post s with
  | none => { outcome := .empty, store := s, deliveryCalls := [] }
  | some p =>
    if notify p then
      { outcome := .delivered
        store := StateManager.delete_pending_post s p.tweet_id
        deliveryCalls := [p.tweet_id] }
    else
      { outcome := .failed, store := s, deliveryCalls := [p.tweet_id] }

/-- Python return value of `post_latest_pending` (`True` on posted or
nothing-to-do, `False` on failure). -/
def postLatestReturn : DeliverOutcome → Bool
  | .delivered => true
  | .empty => true
  | .failed => false

/-- The `max_results` clamp of `TweetFetcher.get_user_tweets`
(tweet_fetcher.py lines 186-189): the value placed in the request params. -/
def twitter_max_results_clamp (maxResults : Int) : Int :=
  if maxResults < 5 then 5
  else if maxResults > 100 then 100
  else maxResults

/-- A freshly initialised store: `_init_database` creates empty tables and no
`pipeline_state` row. -/
def emptyStore : StoreState :=
  { cursors := [], pendingPosts := [], resumeIndex := none, errors := [], clock := 0 }

/-- Pending row enqueued first (earlier `created_timestamp`). -/
def c2Post1 : PendingPost :=
  { tweet_id := 101, tweet_text := "first", username := "a", created_at := "d1",
    ai_summary := "", ai_decision := "TRUE", created_timestamp := 1 }

/-- Pending row enqueued second (later `created_timestamp`). -/
def c2Post2 : PendingPost :=
  { tweet_id := 102, tweet_text := "second", username := "b", created_at := "d2",
    ai_summary := "", ai_decision := "TRUE", created_timestamp := 2 }

/-- Store holding two pending rows with distinct timestamps. -/
def c2Store : StoreState :=
  { cursors := [], pendingPosts := [c2Post1, c2Post2], resumeIndex := none,
    errors := [], clock := 3 }

/-- Concrete tweet data for the enqueue-idempotence witness. -/
def c6Td : StateManager.TweetData :=
  { id := 5, text := "t", username := "a", created_at := "d" }

/-- Concrete analysis data for the enqueue-idempotence witness. -/
def c6Ar : StateManager.AnalysisData := { summary := "s", decision := "TRUE" }

/-- Concrete tweet for the classification-decision claims. -/
def c7Tweet : Tweet := { id := 1, text := "x", username := "acct", created_at := "d" }

/-- Classifier returning the decision string `accept` for every tweet. -/
def c7AcceptClassifier : ClassifyOracle :=
  fun _ => some { decision := "accept", reasoning := "" }

/-- Single pending row for the delivery-sweep witness. -/
def c8Post : PendingPost :=
  { tweet_id := 7, tweet_text := "pending", username := "a", created_at := "d",
    ai_summary := "", ai_decision := "TRUE", created_timestamp := 1 }

/-- Store holding exactly one pending row. -/
def c8Store : StoreState :=
  { cursors := [], pendingPosts := [c8Post], resumeIndex := none,
    errors := [], clock := 2 }

/-- Content source that always succeeds with an empty batch. -/
def itemsFetch : FetchOracle := fun _ _ _ => FetchResult.items []

/-- Classifier that fails on every tweet. -/
def noClassify : ClassifyOracle := fun _ => none

/-- Store with the resume index at the sentinel -1 (next pass starts at 0). -/
def c1Store : StoreState :=
  { cursors := [], pendingPosts := [], resumeIndex := some (-1), errors := [], clock := 0 }

/-- Content source for the C1 scenario: account `a` yields two items,
account `b` is rate limited, account `c` yields an empty batch. -/
def c1Fetch : FetchOracle := fun u _ _ =>
  if u == "a" then
    FetchResult.items [{ id := 1, text := "t1", created_at := "d1" },
      { id := 2, text := "t2", created_at := "d2" }]
  else if u == "b" then FetchResult.rateLimited
  else FetchResult.items []

/-- Classifier answering `FALSE` on every tweet. -/
def c1Classify : ClassifyOracle := fun _ => some { decision := "FALSE", reasoning := "" }

/-- Store with the resume index at 0, so the next pass starts at index 1. -/
def c3Store : StoreState :=
  { cursors := [], pendingPosts := [], resumeIndex := some 0, errors := [], clock := 0 }

/-- Store with the resume index at the sentinel -1. -/
def c4Store : StoreState :=
  { cursors := [], pendingPosts := [], resumeIndex := some (-1), errors := [], clock := 0 }

/-- Store for the C5 scenario: account `a` already has cursor 5, resume index
at the sentinel -1. -/
def c5Store : StoreState :=
  { cursors := [("a", 5)], pendingPosts := [], resumeIndex := some (-1),
    errors := [], clock := 0 }

/-- Content source for the C5 scenario: account `a` (index 0) is rate
limited, every other account yields one item. -/
def c5Fetch : FetchOracle := fun u _ _ =>
  if u == "a" then FetchResult.rateLimited
  else FetchResult.items [{ id := 7, text := "t", created_at := "d" }]

/-- Classifier answering `TRUE` on every tweet. -/
def c5Classify : ClassifyOracle := fun _ => some { decision := "TRUE", reasoning := "r" }

end XBot

namespace XBot

theorem pickLatest_ne_none (q : PendingPost) (rest : List PendingPost) :
    StateManager.pickLatest (q :: rest) ≠ none := by
  simp only [StateManager.pickLatest]
  cases StateManager.pickLatest rest with
  | none => simp
  | some r => by_cases hc : r.created_timestamp > q.created_timestamp <;> simp [hc]

theorem pickLatest_eq_none {l : List PendingPost} :
    StateManager.pickLatest l = none ↔ l = [] := by
  cases l with
  | nil => simp [StateManager.pickLatest]
  | cons q rest =>
    constructor
    · intro h; exact absurd h (pickLatest_ne_none q rest)
    · intro h; exact absurd h (List.cons_ne_nil q rest)

theorem pickLatest_mem {p : PendingPost} : ∀ {l : List PendingPost},
    StateManager.pickLatest l = some p → p ∈ l
  | [], h => by simp [StateManager.pickLatest] at h
  | q :: rest, h => by
    cases hr : StateManager.pickLatest rest with
    | none =>
      simp only [StateManager.pickLatest, hr, Option.some.injEq] at h
      simp [← h]
    | some r =>
      simp only [StateManager.pickLatest, hr] at h
      by_cases hc : r.created_timestamp > q.created_timestamp
      · rw [if_pos hc] at h
        simp only [Option.some.injEq] at h
        subst h
        exact List.mem_cons_of_mem _ (pickLatest_mem hr)
      · rw [if_neg hc] at h
        simp only [Option.some.injEq] at h
        simp [← h]

theorem pickLatest_le {p : PendingPost} : ∀ {l : List PendingPost},
    StateManager.pickLatest l = some p →
    ∀ q ∈ l, q.created_timestamp ≤ p.created_timestamp
  | [], h => by simp [StateManager.pickLatest] at h
  | a :: rest, h => by
    cases hr : StateManager.pickLatest rest with
    | none =>
      simp only [StateManager.pickLatest, hr, Option.some.injEq] at h
      subst h
      have : rest = [] := pickLatest_eq_none.mp hr
      subst this
      simp
    | some r =>
      simp only [StateManager.pickLatest, hr] at h
      by_cases hc : r.created_timestamp > a.created_timestamp
      · rw [if_pos hc] at h
        simp only [Option.some.injEq] at h
        subst h
        intro q hq
        rcases List.mem_cons.mp hq with hq | hq
        · subst hq; exact Nat.le_of_lt hc
        · exact pickLatest_le hr q hq
      · rw [if_neg hc] at h
        simp only [Option.some.injEq] at h
        subst h
        intro q hq
        rcases List.mem_cons.mp hq with hq | hq
        · subst hq; exact Nat.le_refl _
        · exact Nat.le_trans (pickLatest_le hr q hq) (Nat.le_of_not_lt hc)

/-- C2: the claim says the delivery sweep dequeues the pending item with the
EARLIEST observed timestamp.  The code (`get_latest_pending_post`, ORDER BY
created_timestamp DESC LIMIT 1) returns the latest one: on a queue holding
timestamps 1 and 2 it returns the row stamped 2 while the row stamped 1 is
older and still enqueued. -/
theorem c2_dequeue_counterexample :
    StateManager.get_latest_pending_post c2Store = some c2Post2 ∧
    c2Post1 ∈ c2Store.pendingPosts ∧
    c2Post1.created_timestamp < c2Post2.created_timestamp := by
  refine ⟨rfl, ?_, by decide⟩
  simp [c2Store]

/-- C2 (amended): `get_latest_pending_post` returns `none` exactly on an
empty queue, and otherwise returns a pending row whose `created_timestamp` is
maximal (the NEWEST enqueued item, not the oldest). -/
theorem c2_dequeue_latest_amended (s : StoreState) :
    (StateManager.get_latest_pending_post s = none ↔ s.pendingPosts = []) ∧
    ∀ p, StateManager.get_latest_pending_post s = some p →
      p ∈ s.pendingPosts ∧
      ∀ q ∈ s.pendingPosts, q.created_timestamp ≤ p.created_timestamp := by
  refine ⟨pickLatest_eq_none, fun p hp => ⟨pickLatest_mem hp, pickLatest_le hp⟩⟩

/-- Witness for C2 (amended) at the concrete two-row store. -/
theorem c2_dequeue_latest_amended_witness :
    c2Post2 ∈ c2Store.pendingPosts ∧
    c2Post1.created_timestamp ≤ c2Post2.created_timestamp :=
  ⟨((c2_dequeue_latest_amended c2Store).2 c2Post2 rfl).1,
   ((c2_dequeue_latest_amended c2Store).2 c2Post2 rfl).2 c2Post1 (by simp [c2Store])⟩

end XBot

namespace XBot

theorem save_pending_post_of_saved {s : StoreState} {td : StateManager.TweetData}
    {ar : StateManager.AnalysisData}
    (h : StateManager.is_tweet_already_saved s td.id = true) :
    StateManager.save_pending_post s td ar = (false, s) := by
  simp [StateManager.save_pending_post, h]

/-- C6: enqueuing is idempotent per tweet id.  Starting from a store not yet
holding the id, the first `save_pending_post` returns `true`, a second call
with the same id returns `false`, changes nothing, and exactly one pending
row with that id remains. -/
theorem c6_enqueue_idempotent (s : StoreState) (td td' : StateManager.TweetData)
    (ar ar' : StateManager.AnalysisData) (hid : td'.id = td.id)
    (h0 : StateManager.is_tweet_already_saved s td.id = false) :
    (StateManager.save_pending_post s td ar).1 = true ∧
    (StateManager.save_pending_post (StateManager.save_pending_post s td ar).2 td' ar').1 = false ∧
    (StateManager.save_pending_post (StateManager.save_pending_post s td ar).2 td' ar').2 =
      (StateManager.save_pending_post s td ar).2 ∧
    StateManager.pendingCount (StateManager.save_pending_post s td ar).2 td.id = 1 := by
  have hfilter : s.pendingPosts.filter (fun p => p.tweet_id == td.id) = [] := by
    simp only [StateManager.is_tweet_already_saved, decide_eq_false_iff_not,
      Nat.not_lt, Nat.le_zero, List.length_eq_zero] at h0
    exact h0
  have hsaved1 : StateManager.is_tweet_already_saved
      (StateManager.save_pending_post s td ar).2 td'.id = true := by
    simp only [StateManager.save_pending_post, h0, Bool.false_eq_true, if_false]
    simp [StateManager.is_tweet_already_saved, List.filter_append, hid, hfilter]
  have h2 := @save_pending_post_of_saved _ td' ar' hsaved1
  refine ⟨?_, ?_, ?_, ?_⟩
  · simp [StateManager.save_pending_post, h0]
  · rw [h2]
  · rw [h2]
  · simp only [StateManager.save_pending_post, h0, Bool.false_eq_true, if_false]
    simp [StateManager.pendingCount, List.filter_append, hfilter]

/-- Witness for C6 at the fresh store. -/
theorem c6_enqueue_idempotent_witness :
    (StateManager.save_pending_post emptyStore c6Td c6Ar).1 = true ∧
    (StateManager.save_pending_post
      (StateManager.save_pending_post emptyStore c6Td c6Ar).2 c6Td c6Ar).1 = false :=
  ⟨(c6_enqueue_idempotent emptyStore c6Td c6Td c6Ar c6Ar rfl rfl).1,
   (c6_enqueue_idempotent emptyStore c6Td c6Td c6Ar c6Ar rfl rfl).2.1⟩

/-- C7: the claim says the decision strings `accept` and `true` both map to
accepted.  The code accepts only `'TRUE'` (case-insensitive): a tweet whose
classifier decision is `accept` is filtered out of the positive results and
nothing is saved. -/
theorem c7_decision_counterexample :
    process_tweets c7AcceptClassifier [c7Tweet] = [] ∧
    save_processed_content c7AcceptClassifier [c7Tweet] emptyStore = emptyStore := by
  constructor <;> decide

/-- C7 (amended): classification decisions have exactly ONE accepted surface
form, matched case-insensitively: a tweet survives `process_tweets` iff its
decision string uppercases to `TRUE`; every other decision — including
`accept` — is rejected. -/
theorem c7_decision_amended (t : Tweet) (d reasoning : String) :
    process_tweets (fun _ => some { decision := d, reasoning := reasoning }) [t] ≠ [] ↔
      pyUpper d = "TRUE" := by
  by_cases h : pyUpper d = "TRUE" <;>
    simp [process_tweets, analyze_tweets_batch, h]

/-- C8: the delivery sweep removes the dequeued row only after the notifier
confirms success (and it then never reappears on a later dequeue), leaves the
store untouched on failure, and on an empty queue reports empty with no store
mutation and no delivery call. -/
theorem c8_delivery_sweep (notify : PendingPost → Bool) (s : StoreState) :
    (s.pendingPosts = [] →
      (post_latest_pending notify s).outcome = DeliverOutcome.empty ∧
      (post_latest_pending notify s).store = s ∧
      (post_latest_pending notify s).deliveryCalls = []) ∧
    (∀ p, StateManager.get_latest_pending_post s = some p →
      (notify p = false →
        (post_latest_pending notify s).outcome = DeliverOutcome.failed ∧
        (post_latest_pending notify s).store = s) ∧
      (notify p = true →
        (post_latest_pending notify s).outcome = DeliverOutcome.delivered ∧
        ∀ q, StateManager.get_latest_pending_post (post_latest_pending notify s).store = some q →
          q.tweet_id ≠ p.tweet_id)) := by
  constructor
  · intro hemp
    have hnone : StateManager.get_latest_pending_post s = none := by
      simp [StateManager.get_latest_pending_post, hemp, StateManager.pickLatest]
    simp [post_latest_pending, hnone]
  · intro p hp
    constructor
    · intro hn
      simp [post_latest_pending, hp, hn]
    · intro hn
      refine ⟨by simp [post_latest_pending, hp, hn], ?_⟩
      intro q hq
      simp only [post_latest_pending, hp, hn, if_true] at hq
      have hmem : q ∈ (StateManager.delete_pending_post s p.tweet_id).pendingPosts :=
        pickLatest_mem hq
      simp only [StateManager.delete_pending_post, List.mem_filter,
        Bool.not_eq_eq_eq_not, Bool.not_true, beq_eq_false_iff_ne] at hmem
      exact hmem.2

/-- Witness for C8: successful delivery on a one-row store, and the empty
path on the fresh store. -/
theorem c8_delivery_sweep_witness :
    (post_latest_pending (fun _ => true) c8Store).outcome = DeliverOutcome.delivered ∧
    (post_latest_pending (fun _ => true) emptyStore).outcome = DeliverOutcome.empty :=
  ⟨(((c8_delivery_sweep (fun _ => true) c8Store).2 c8Post rfl).2 rfl).1,
   ((c8_delivery_sweep (fun _ => true) emptyStore).1 rfl).1⟩

/-- C9: the `max_results` value handed to the Twitter API is clamped into
[5,100]: 2 is raised to 5, 500 lowered to 100, in-range values pass through
unchanged, and the clamped value always lies in [5,100]. -/
theorem c9_fetch_limit_clamp (n : Int) :
    twitter_max_results_clamp 2 = 5 ∧
    twitter_max_results_clamp 500 = 100 ∧
    (5 ≤ n → n ≤ 100 → twitter_max_results_clamp n = n) ∧
    5 ≤ twitter_max_results_clamp n ∧ twitter_max_results_clamp n ≤ 100 := by
  refine ⟨by decide, by decide, ?_, ?_, ?_⟩ <;>
    · intros
      unfold twitter_max_results_clamp
      split_ifs <;> omega

/-- Witness for C9 at the in-range request 50. -/
theorem c9_fetch_limit_clamp_witness :
    twitter_max_results_clamp 50 = 50 ∧ twitter_max_results_clamp 2 = 5 :=
  ⟨(c9_fetch_limit_clamp 50).2.2.1 (by decide) (by decide),
   (c9_fetch_limit_clamp 50).1⟩

end XBot

namespace XBot

/-- C1: the claim (and the code's own comments and log line) say a
RATE_LIMITED fetch stops the pass and the same account is retried.  In the
code the rate-limit branch ends in `continue`, which advances the loop: with
accounts `[a, b, c]`, resume index -1, `a` yielding two items and `b` rate
limited, account `c` IS fetched in the same pass, the stored resume index
ends at 2 (not 0), and the next pass starts at index 0 (not 1). -/
theorem c1_rate_limit_continue_bug :
    ((fetch_new_tweets ENABLE_INTERNAL_CYCLING ["a", "b", "c"] id c1Fetch
        c1Classify 10 c1Store).fetchCalls.map Prod.snd = ["a", "b", "c"]) ∧
    (fetch_new_tweets ENABLE_INTERNAL_CYCLING ["a", "b", "c"] id c1Fetch
        c1Classify 10 c1Store).store.resumeIndex = some 2 ∧
    startIndexOf (fetch_new_tweets ENABLE_INTERNAL_CYCLING ["a", "b", "c"] id c1Fetch
        c1Classify 10 c1Store).store 3 = 0 := by
  refine ⟨by decide, by decide, by decide⟩

/-- C5: the claim says a RATE_LIMITED fetch at index i leaves that account's
cursor unchanged (which holds) and never lets the resume index advance past
i-1 in that pass (which fails).  With accounts `[a, b]`, resume index -1 and
`a` (index 0) rate limited, the full run leaves `a`'s cursor at 5 but the
resume index ends at 1 > i-1 = -1, because the loop continues to `b`. -/
theorem c5_rate_limit_invariant_bug :
    StateManager.get_last_tweet_id
      (pipelineRun ENABLE_INTERNAL_CYCLING ["a", "b"] id c5Fetch c5Classify 10 c5Store)
      "a" = some 5 ∧
    (pipelineRun ENABLE_INTERNAL_CYCLING ["a", "b"] id c5Fetch c5Classify 10 c5Store).resumeIndex =
      some 1 := by
  refine ⟨by decide, by decide⟩

/-- C3: the claim asserts that EVERY full error-free pass ends with the
resume index at N-1.  A pass over `[a, b]` starting from stored resume index
0 (so at account index 1) is fully error-free yet ends with resume index 0,
and the next pass starts at index 1, not 0. -/
theorem c3_wraparound_counterexample :
    (fetch_new_tweets ENABLE_INTERNAL_CYCLING ["a", "b"] id itemsFetch
        noClassify 10 c3Store).store.resumeIndex = some 0 ∧
    (0 : Int) ≠ (([("a" : String), "b"].length : Int) - 1) ∧
    startIndexOf (fetch_new_tweets ENABLE_INTERNAL_CYCLING ["a", "b"] id itemsFetch
        noClassify 10 c3Store).store 2 = 1 := by
  refine ⟨by decide, by decide, by decide⟩

/-- C4: the claim says the default configuration resets the resume index to
-1 once it reaches N-1 at end of pass.  `ENABLE_INTERNAL_CYCLING` is `False`
by default, so the reset block never runs: after a full pass over `[a]` the
resume index reached N-1 = 0 and stays 0 instead of being reset to -1. -/
theorem c4_default_reset_counterexample :
    ENABLE_INTERNAL_CYCLING = false ∧
    (fetch_new_tweets ENABLE_INTERNAL_CYCLING ["a"] id itemsFetch
        noClassify 10 c4Store).store.resumeIndex = some 0 ∧
    (some (0 : Int) ≠ some (-1 : Int)) := by
  refine ⟨rfl, by decide, by decide⟩

end XBot

namespace XBot

theorem passStep_fetchCalls (accounts : List String) (parse : String → String)
    (fetch : FetchOracle) (classify : ClassifyOracle) (maxTweets startIndex : Nat)
    (st : PassState) (i : Nat) :
    (passStep accounts parse fetch classify maxTweets startIndex st i).fetchCalls =
      st.fetchCalls ++ [((startIndex + i) % accounts.length,
        parse (accounts.getD ((startIndex + i) % accounts.length) ""))] := by
  simp only [passStep]
  cases fetch (parse (accounts.getD ((startIndex + i) % accounts.length) ""))
      (StateManager.get_last_tweet_id st.store
        (parse (accounts.getD ((startIndex + i) % accounts.length) ""))) maxTweets with
  | rateLimited => by_cases hb : st.allTweets.isEmpty <;> simp [hb]
  | items ts => rfl
  | fetchError m => rfl

theorem loop_fetchCalls (accounts : List String) (parse : String → String)
    (fetch : FetchOracle) (classify : ClassifyOracle) (maxTweets startIndex : Nat)
    (l : List Nat) :
    ∀ st : PassState,
      (l.foldl (passStep accounts parse fetch classify maxTweets startIndex) st).fetchCalls =
        st.fetchCalls ++ l.map (fun i => ((startIndex + i) % accounts.length,
          parse (accounts.getD ((startIndex + i) % accounts.length) ""))) := by
  induction l with
  | nil => intro st; simp
  | cons i l ih =>
    intro st
    rw [List.foldl_cons, ih, passStep_fetchCalls]
    simp

theorem endOfPass_fetchCalls (cycling : Bool) (accounts : List String) (st : PassState) :
    (endOfPass cycling accounts st).fetchCalls = st.fetchCalls := by
  unfold endOfPass
  split_ifs <;> rfl

theorem endOfPass_false (accounts : List String) (st : PassState) :
    endOfPass false accounts st = st := by
  simp [endOfPass]

theorem endOfPass_true_reset (accounts : List String) (st : PassState)
    (hany : st.anyProcessed = true)
    (hge : StateManager.get_last_processed_account_index st.store ≥
      (accounts.length : Int) - 1) :
    endOfPass true accounts st =
      { st with store := StateManager.set_last_processed_account_index st.store (-1) } := by
  simp only [endOfPass, hany, Bool.or_true, Bool.and_self, if_true]
  rw [if_pos hge]

theorem passStep_resume_of_items (accounts : List String) (parse : String → String)
    (fetch : FetchOracle) (classify : ClassifyOracle) (maxTweets startIndex : Nat)
    (hsucc : ∀ u c, (fetch u c maxTweets).isItems = true)
    (st : PassState) (i : Nat) :
    (passStep accounts parse fetch classify maxTweets startIndex st i).store.resumeIndex =
      some (((startIndex + i) % accounts.length : Nat) : Int) ∧
    (passStep accounts parse fetch classify maxTweets startIndex st i).anyProcessed = true := by
  have h := hsucc (parse (accounts.getD ((startIndex + i) % accounts.length) ""))
    (StateManager.get_last_tweet_id st.store
      (parse (accounts.getD ((startIndex + i) % accounts.length) "")))
  simp only [passStep]
  cases hf : fetch (parse (accounts.getD ((startIndex + i) % accounts.length) ""))
      (StateManager.get_last_tweet_id st.store
        (parse (accounts.getD ((startIndex + i) % accounts.length) ""))) maxTweets with
  | rateLimited => rw [hf] at h; simp [FetchResult.isItems] at h
  | items ts => exact ⟨rfl, rfl⟩
  | fetchError m => rw [hf] at h; simp [FetchResult.isItems] at h

theorem loop_resume_of_items (accounts : List String) (parse : String → String)
    (fetch : FetchOracle) (classify : ClassifyOracle) (maxTweets startIndex : Nat)
    (hsucc : ∀ u c, (fetch u c maxTweets).isItems = true)
    (l : List Nat) (i : Nat) (st : PassState) :
    ((l ++ [i]).foldl (passStep accounts parse fetch classify maxTweets startIndex)
      st).store.resumeIndex = some (((startIndex + i) % accounts.length : Nat) : Int) ∧
    ((l ++ [i]).foldl (passStep accounts parse fetch classify maxTweets startIndex)
      st).anyProcessed = true := by
  rw [List.foldl_append, List.foldl_cons, List.foldl_nil]
  exact passStep_resume_of_items accounts parse fetch classify maxTweets startIndex hsucc _ i

end XBot

namespace XBot

/-- C3 (amended): the wraparound law holds for the passes the claim's own
scenario intends — those that start at account index 0 (stored resume index
congruent to -1 mod N, e.g. the -1 sentinel).  For every non-empty account
list, after a full pass with every fetch succeeding that starts at index 0,
the stored resume index is N-1 and the next pass computes start index 0.  A
pass starting elsewhere ends at its own predecessor index instead (see the
counterexample). -/
theorem c3_wraparound_amended (accounts : List String) (parse : String → String)
    (fetch : FetchOracle) (classify : ClassifyOracle) (maxTweets : Nat) (s : StoreState)
    (hne : accounts ≠ [])
    (hstart : startIndexOf s accounts.length = 0)
    (hsucc : ∀ u c, (fetch u c maxTweets).isItems = true) :
    StateManager.get_last_processed_account_index
      (fetch_new_tweets ENABLE_INTERNAL_CYCLING accounts parse fetch classify maxTweets
        s).store = (accounts.length : Int) - 1 ∧
    startIndexOf
      (fetch_new_tweets ENABLE_INTERNAL_CYCLING accounts parse fetch classify maxTweets
        s).store accounts.length = 0 := by
  obtain ⟨m, hm⟩ : ∃ m, accounts.length = m + 1 := by
    cases hl : accounts.length with
    | zero => exact absurd (List.length_eq_zero.mp hl) hne
    | succ m => exact ⟨m, rfl⟩
  have hcyc : ENABLE_INTERNAL_CYCLING = false := rfl
  unfold fetch_new_tweets
  rw [hcyc, endOfPass_false, hstart, hm, List.range_succ]
  obtain ⟨hres, -⟩ := loop_resume_of_items accounts parse fetch classify maxTweets 0 hsucc
    (List.range m) m (initPass s)
  rw [hm] at hres
  have hmod : (0 + m) % (m + 1) = m := by
    rw [Nat.zero_add]
    exact Nat.mod_eq_of_lt (Nat.lt_succ_self m)
  rw [hmod] at hres
  constructor
  · simp only [StateManager.get_last_processed_account_index, hres]
    push_cast
    ring
  · simp only [startIndexOf, StateManager.get_last_processed_account_index, hres]
    have hcast : ((m + 1 : Nat) : Int) = (m : Int) + 1 := by push_cast; ring
    rw [hcast, Int.emod_self]
    rfl

/-- Witness for C3 (amended) over two accounts starting from the -1
sentinel. -/
theorem c3_wraparound_amended_witness :
    StateManager.get_last_processed_account_index
      (fetch_new_tweets ENABLE_INTERNAL_CYCLING ["p", "q"] id itemsFetch noClassify 10
        c4Store).store = ((["p", "q"].length : Nat) : Int) - 1 ∧
    startIndexOf
      (fetch_new_tweets ENABLE_INTERNAL_CYCLING ["p", "q"] id itemsFetch noClassify 10
        c4Store).store ["p", "q"].length = 0 :=
  c3_wraparound_amended ["p", "q"] id itemsFetch noClassify 10 c4Store
    (by decide) (by decide) (fun _ _ => rfl)

/-- C4 (amended): the end-of-pass wrap-to-(-1) reset is controlled by
`ENABLE_INTERNAL_CYCLING`, whose default is `False`, so by default NO reset
happens and the resume index stays at N-1 after a full pass from index 0;
only with cycling enabled is it reset to -1, and in both configurations the
next pass computes start index 0. -/
theorem c4_cycling_reset_amended (accounts : List String) (parse : String → String)
    (fetch : FetchOracle) (classify : ClassifyOracle) (maxTweets : Nat) (s : StoreState)
    (hne : accounts ≠ [])
    (hstart : startIndexOf s accounts.length = 0)
    (hsucc : ∀ u c, (fetch u c maxTweets).isItems = true) :
    ENABLE_INTERNAL_CYCLING = false ∧
    (fetch_new_tweets false accounts parse fetch classify maxTweets s).store.resumeIndex =
      some ((accounts.length : Int) - 1) ∧
    (fetch_new_tweets true accounts parse fetch classify maxTweets s).store.resumeIndex =
      some (-1) ∧
    startIndexOf (fetch_new_tweets true accounts parse fetch classify maxTweets s).store
      accounts.length = 0 := by
  obtain ⟨m, hm⟩ : ∃ m, accounts.length = m + 1 := by
    cases hl : accounts.length with
    | zero => exact absurd (List.length_eq_zero.mp hl) hne
    | succ m => exact ⟨m, rfl⟩
  obtain ⟨hres, hany⟩ := loop_resume_of_items accounts parse fetch classify maxTweets 0 hsucc
    (List.range m) m (initPass s)
  have hmod : (0 + m) % accounts.length = m := by
    rw [hm, Nat.zero_add]
    exact Nat.mod_eq_of_lt (Nat.lt_succ_self m)
  rw [hmod] at hres
  have hge : StateManager.get_last_processed_account_index
      ((List.range m ++ [m]).foldl (passStep accounts parse fetch classify maxTweets 0)
        (initPass s)).store ≥ (accounts.length : Int) - 1 := by
    simp only [StateManager.get_last_processed_account_index, hres, hm]
    push_cast
    omega
  have hkey : (fetch_new_tweets true accounts parse fetch classify maxTweets s).store.resumeIndex =
      some (-1) := by
    unfold fetch_new_tweets
    rw [hstart, hm, List.range_succ]
    rw [endOfPass_true_reset accounts _ hany hge]
    rfl
  have hdef : (fetch_new_tweets false accounts parse fetch classify maxTweets s).store.resumeIndex =
      some ((m : Nat) : Int) := by
    unfold fetch_new_tweets
    rw [endOfPass_false, hstart, hm, List.range_succ]
    exact hres
  refine ⟨rfl, ?_, hkey, ?_⟩
  · rw [hdef, hm]
    congr 1
    push_cast
    ring
  · simp only [startIndexOf, StateManager.get_last_processed_account_index, hkey]
    norm_num

/-- Witness for C4 (amended) over one account starting from the -1
sentinel. -/
theorem c4_cycling_reset_amended_witness :
    ENABLE_INTERNAL_CYCLING = false ∧
    (fetch_new_tweets false ["r"] id itemsFetch noClassify 10 c4Store).store.resumeIndex =
      some ((["r"].length : Int) - 1) ∧
    (fetch_new_tweets true ["r"] id itemsFetch noClassify 10 c4Store).store.resumeIndex =
      some (-1) ∧
    startIndexOf (fetch_new_tweets true ["r"] id itemsFetch noClassify 10 c4Store).store
      ["r"].length = 0 :=
  c4_cycling_reset_amended ["r"] id itemsFetch noClassify 10 c4Store
    (by decide) (by decide) (fun _ _ => rfl)

end XBot

namespace XBot

/-- C10: on a freshly initialised store (no `pipeline_state` row) the resume
index reads as 0, not the -1 sentinel, so with N ≥ 2 accounts the very first
pass starts fetching at index (0+1) mod N = 1 and account 0 is the LAST
account fetched in that pass. -/
theorem c10_fresh_start_index (accounts : List String) (parse : String → String)
    (fetch : FetchOracle) (classify : ClassifyOracle) (maxTweets : Nat) (s : StoreState)
    (hfresh : s.resumeIndex = none) (h2 : 2 ≤ accounts.length) :
    StateManager.get_last_processed_account_index s = 0 ∧
    startIndexOf s accounts.length = 1 ∧
    ((fetch_new_tweets ENABLE_INTERNAL_CYCLING accounts parse fetch classify maxTweets
      s).fetchCalls.map Prod.fst).head? = some 1 ∧
    ((fetch_new_tweets ENABLE_INTERNAL_CYCLING accounts parse fetch classify maxTweets
      s).fetchCalls.map Prod.fst).getLast? = some 0 := by
  obtain ⟨k, hk⟩ : ∃ k, accounts.length = k + 2 := ⟨accounts.length - 2, by omega⟩
  have hzero : StateManager.get_last_processed_account_index s = 0 := by
    simp [StateManager.get_last_processed_account_index, hfresh]
  have hstart : startIndexOf s accounts.length = 1 := by
    rw [startIndexOf, hzero]
    have h1 : (0 : Int) + 1 = 1 := by norm_num
    rw [h1]
    have hlt : (1 : Int) % (accounts.length : Int) = 1 :=
      Int.emod_eq_of_lt (by norm_num) (by exact_mod_cast h2)
    rw [hlt]
    rfl
  have htrace : (fetch_new_tweets ENABLE_INTERNAL_CYCLING accounts parse fetch classify
      maxTweets s).fetchCalls.map Prod.fst =
      (List.range accounts.length).map (fun i => (1 + i) % accounts.length) := by
    unfold fetch_new_tweets
    rw [endOfPass_fetchCalls, hstart, loop_fetchCalls]
    simp [initPass]
  refine ⟨hzero, hstart, ?_, ?_⟩
  · rw [htrace, hk, List.range_succ_eq_map]
    simp only [List.map_cons, List.head?_cons]
    have h10 : (1 + 0) % (k + 2) = 1 := by
      rw [Nat.add_zero]
      exact Nat.mod_eq_of_lt (by omega)
    rw [h10]
  · rw [htrace, hk, List.range_succ, List.map_append]
    simp only [List.map_cons, List.map_nil]
    rw [List.getLast?_concat]
    have h12 : 1 + (k + 1) = k + 2 := by omega
    rw [h12, Nat.mod_self]

/-- Witness for C10 over three accounts and the fresh store. -/
theorem c10_fresh_start_index_witness :
    StateManager.get_last_processed_account_index emptyStore = 0 ∧
    startIndexOf emptyStore ["x", "y", "z"].length = 1 ∧
    ((fetch_new_tweets ENABLE_INTERNAL_CYCLING ["x", "y", "z"] id itemsFetch noClassify 10
      emptyStore).fetchCalls.map Prod.fst).head? = some 1 ∧
    ((fetch_new_tweets ENABLE_INTERNAL_CYCLING ["x", "y", "z"] id itemsFetch noClassify 10
      emptyStore).fetchCalls.map Prod.fst).getLast? = some 0 :=
  c10_fresh_start_index ["x", "y", "z"] id itemsFetch noClassify 10 emptyStore rfl (by decide)

end XBot
